import Mathlib

/-!
Shallow embedding of spiderpool's `pkg/networking/networking/route.go`
(Policy Routing Manager) together with the parts of Go's `net` package and
the vishvananda/netlink kernel interface that the file relies on.

The kernel is modelled as an explicit state (`Kern`): a link registry, the
route table, the policy-rule list, oracles describing which add/delete
syscalls the kernel rejects, and a trace recording every netlink mutation
the code submits.  Each Go function becomes a pure state-passing function.
-/

namespace Networking

/-- A Go `net.IP`: a byte slice; `[]` plays the role of Go's `nil` IP. -/
abbrev IP := List Nat

/-- Go `isZeros`: every byte of the slice is zero. -/
def isZeros (p : IP) : Bool := p.all (· = 0)

/-- Go `net.IP.To4`: the 4-byte form when the IP is IPv4 (either already
4 bytes, or a 16-byte IPv4-in-IPv6 mapped address); `[]` (nil) otherwise. -/
def IP.to4 (ip : IP) : IP :=
  if ip.length = 4 then ip
  else if ip.length = 16 ∧ isZeros (ip.take 10) ∧ ip.get? 10 = some 255 ∧ ip.get? 11 = some 255
  then ip.drop 12
  else []

/-- Go `net.IP.Equal`: byte equality, also across the 4-byte and the
16-byte IPv4-mapped representations of the same IPv4 address. -/
def IP.equal (ip x : IP) : Bool :=
  if ip.length = x.length then ip = x
  else if ip.length = 4 ∧ x.length = 16 then
    isZeros (x.take 10) ∧ x.get? 10 = some 255 ∧ x.get? 11 = some 255 ∧ x.drop 12 = ip
  else if ip.length = 16 ∧ x.length = 4 then
    isZeros (ip.take 10) ∧ ip.get? 10 = some 255 ∧ ip.get? 11 = some 255 ∧ ip.drop 12 = x
  else false

/-- Go `net.IPv4zero`: `net.IPv4(0,0,0,0)`, a 16-byte mapped address. -/
def IPv4zero : IP := [0,0,0,0,0,0,0,0,0,0,255,255,0,0,0,0]

/-- One lowercase hex digit. -/
def hexDigit (n : Nat) : Char :=
  if n < 10 then Char.ofNat (48 + n) else Char.ofNat (87 + n)

/-- Accumulating loop for `hexNat`, fuelled by the digit count. -/
def hexNatAux : Nat → Nat → String → String
  | 0, _, acc => acc
  | _ + 1, 0, acc => acc
  | fuel + 1, n, acc => hexNatAux fuel (n / 16) (String.singleton (hexDigit (n % 16)) ++ acc)

/-- Lowercase hexadecimal rendering of a number, no leading zeros. -/
def hexNat (n : Nat) : String :=
  if n = 0 then "0" else hexNatAux 8 n ""

/-- Pair up the 16 bytes of an IPv6 address into eight 16-bit groups. -/
def v6Groups : List Nat → List Nat
  | b1 :: b2 :: rest => (b1 * 256 + b2) :: v6Groups rest
  | _ => []

/-- Streaming search for the run of zero groups that Go's `IP.String`
elides: the earliest run of maximal length.  Returns `(start, length)`;
length `0` when the address has no zero group. -/
def bestZeroRun (gs : List Nat) : Nat × Nat :=
  let step := fun (st : (Nat × Nat) × (Nat × Nat) × Nat) (g : Nat) =>
    let best := st.1
    let cur := st.2.1
    let i := st.2.2
    if g = 0 then
      let cur2 := if cur.2 = 0 then (i, 1) else (cur.1, cur.2 + 1)
      let best2 := if cur2.2 > best.2 then cur2 else best
      (best2, cur2, i + 1)
    else (best, (0, 0), i + 1)
  ((gs.foldl step ((0, 0), (0, 0), 0)).1)

/-- RFC 5952 rendering of eight groups, shortening the chosen zero run to
`::`.  `e0`/`len` come from `bestZeroRun`; a run of a single group is not
shortened, matching Go. -/
def renderV6 (gs : List Nat) : String :=
  let best := bestZeroRun gs
  if best.2 ≤ 1 then String.intercalate ":" (gs.map hexNat)
  else
    String.intercalate ":" ((gs.take best.1).map hexNat) ++ "::" ++
      String.intercalate ":" ((gs.drop (best.1 + best.2)).map hexNat)

/-- Go `net.IP.String`: `<nil>` for a nil IP, dotted decimal for an IPv4
address, RFC 5952 text for a 16-byte address, a hex fallback otherwise. -/
def ipString (ip : IP) : String :=
  if ip.length = 0 then "<nil>"
  else
    let p4 := IP.to4 ip
    if p4.length = 4 then
      String.intercalate "." (p4.map (fun b => toString b))
    else if ip.length ≠ 16 then "?" ++ String.join (ip.map hexNat)
    else renderV6 (v6Groups ip)

/-- Number of leading one bits of a mask byte of the form `1^k 0^(8-k)`. -/
def byteOnes (b : Nat) : Option Nat :=
  if b = 255 then some 8
  else if b = 254 then some 7
  else if b = 252 then some 6
  else if b = 248 then some 5
  else if b = 240 then some 4
  else if b = 224 then some 3
  else if b = 192 then some 2
  else if b = 128 then some 1
  else if b = 0 then some 0
  else none

/-- Go `simpleMaskLength`: the prefix length of a CIDR mask, `none` when
the mask is not of the contiguous `1…10…0` form. -/
def maskOnes : List Nat → Option Nat
  | [] => some 0
  | b :: rest =>
    if b = 255 then (maskOnes rest).map (8 + ·)
    else
      match byteOnes b with
      | none => none
      | some k => if rest.all (· = 0) then some k else none

/-- Go `net.CIDRMask ones bits`: the byte form of a CIDR mask. -/
def CIDRMask (ones bits : Nat) : List Nat :=
  (List.range (bits / 8)).map (fun i =>
    if (i + 1) * 8 ≤ ones then 255
    else if ones ≤ i * 8 then 0
    else 256 - 2 ^ (8 - (ones - i * 8)))

/-- A Go `*net.IPNet`: address plus mask bytes. -/
structure IPNet where
  ip : IP
  mask : List Nat
deriving DecidableEq, Repr

/-- Go `(*net.IPNet).String`, on the nullable pointer: `<nil>` for nil,
otherwise the address followed by `/` and the prefix length (hex fallback
for a non-CIDR mask). -/
def ipnetString : Option IPNet → String
  | none => "<nil>"
  | some n =>
    match maskOnes n.mask with
    | some l => ipString n.ip ++ "/" ++ toString l
    | none => ipString n.ip ++ "/" ++ String.join (n.mask.map hexNat)

/-- A netlink link: the attributes `route.go` reads (`Attrs().Name`,
`Attrs().Index`). -/
structure Link where
  name : String
  index : Int
deriving DecidableEq, Repr

/-- A `netlink.NexthopInfo`: one segment of a multipath route (the fields
`route.go` reads). -/
structure NexthopInfo where
  linkIndex : Int
  gw : IP
deriving DecidableEq, Repr

/-- A `netlink.Route`, restricted to the fields `route.go` reads or
writes.  `gw = []` and `multiPath = []` are Go's nil values. -/
structure Route where
  linkIndex : Int := 0
  dst : Option IPNet := none
  gw : IP := []
  table : Int := 0
  scope : Int := 0
  family : Int := 0
  mtu : Int := 0
  multiPath : List NexthopInfo := []
deriving DecidableEq, Repr

/-- A `netlink.Rule`, restricted to the fields `route.go` writes. -/
structure Rule where
  priority : Int
  family : Int
  table : Int
  mark : Int
  dst : Option IPNet
  src : Option IPNet
deriving DecidableEq, Repr

/-- `netlink.NewRule()`: the descriptor defaults (unset priority and mark
are `-1`, the rest zero values). -/
def NewRule : Rule :=
  { priority := -1, family := 0, table := 0, mark := -1, dst := none, src := none }

def FAMILY_ALL : Int := 0
def FAMILY_V4 : Int := 2
def FAMILY_V6 : Int := 10

/-- One netlink mutation submitted to the kernel. -/
inductive Op where
  | addRoute (r : Route)
  | delRoute (r : Route)
  | addRule (r : Rule)
  | delRule (r : Rule)
deriving DecidableEq, Repr

/-- The kernel's networking state as seen through netlink: the link
registry, the live route and rule tables, oracles telling which add or
delete submissions the kernel rejects for reasons of its own, and the
trace of every mutation submitted so far. -/
structure Kern where
  links : List Link
  routes : List Route
  rules : List Rule
  routeAddFail : Route → Bool
  routeDelFail : Route → Bool
  ruleAddFail : Rule → Bool
  trace : List Op

/-- `netlink.LinkByName`. -/
def LinkByName (iface : String) (k : Kern) : Option Link :=
  k.links.find? (fun l => l.name == iface)

/-- `netlink.LinkByIndex`. -/
def LinkByIndex (idx : Int) (k : Kern) : Option Link :=
  k.links.find? (fun l => l.index == idx)

/-- `netlink.RouteList nil family`: every route of the requested address
family (`FAMILY_ALL` lists everything). -/
def RouteList (fam : Int) (k : Kern) : List Route :=
  k.routes.filter (fun r => fam == FAMILY_ALL || r.family == fam)

/-- Outcome of a `netlink.RouteAdd` syscall, as `route.go` distinguishes
them: success, `EEXIST` (`os.IsExist`), or any other error. -/
inductive AddRes where
  | ok
  | exist
  | failed
deriving DecidableEq, Repr

/-- `netlink.RouteAdd`: the submission is traced; the kernel rejects it
when the oracle says so, answers `EEXIST` when the route is already in the
table, and appends it otherwise. -/
def RouteAdd (r : Route) (k : Kern) : AddRes × Kern :=
  let k1 := { k with trace := k.trace ++ [Op.addRoute r] }
  if k.routeAddFail r then (AddRes.failed, k1)
  else if r ∈ k.routes then (AddRes.exist, k1)
  else (AddRes.ok, { k1 with routes := k1.routes ++ [r] })

/-- `netlink.RouteDel`: the submission is traced; the kernel rejects it
when the oracle says so and otherwise drops every table entry matching
the descriptor (a descriptor matching no entry no-ops silently, the
kernel-version-dependent behaviour the repository's own design notes
flag for the multipath carve-out). -/
def RouteDel (r : Route) (k : Kern) : Bool × Kern :=
  let k1 := { k with trace := k.trace ++ [Op.delRoute r] }
  if k.routeDelFail r then (false, k1)
  else (true, { k1 with routes := k1.routes.filter (fun x => x ≠ r) })

/-- `netlink.RuleAdd`: traced; rejected only when the oracle says so
(the kernel accepts duplicate rules), otherwise appended. -/
def RuleAdd (r : Rule) (k : Kern) : Bool × Kern :=
  let k1 := { k with trace := k.trace ++ [Op.addRule r] }
  if k.ruleAddFail r then (false, k1)
  else (true, { k1 with rules := k1.rules ++ [r] })

/-- `netlink.RuleDel`: traced; removes the first rule equal to the
descriptor, failing (`ENOENT`) when none matches. -/
def RuleDel (r : Rule) (k : Kern) : Bool × Kern :=
  let k1 := { k with trace := k.trace ++ [Op.delRule r] }
  if r ∈ k.rules then (true, { k1 with rules := k1.rules.erase r })
  else (false, k1)

/-- The error kinds `route.go` surfaces (§7 of the spec). -/
inductive Err where
  | interfaceNotFound
  | unsupportedFamily
  | routeAddFailed
  | routeDeleteFailed
  | ruleOperationFailed
deriving DecidableEq, Repr

instance {ε α : Type} [DecidableEq ε] [DecidableEq α] : DecidableEq (Except ε α) := fun x y =>
  match x, y with
  | Except.ok a, Except.ok b =>
    if h : a = b then isTrue (by rw [h]) else isFalse (by intro hc; cases hc; exact h rfl)
  | Except.error a, Except.error b =>
    if h : a = b then isTrue (by rw [h]) else isFalse (by intro hc; cases hc; exact h rfl)
  | Except.ok _, Except.error _ => isFalse (by intro hc; cases hc)
  | Except.error _, Except.ok _ => isFalse (by intro hc; cases hc)

/-- route.go line 17: the fixed priority for mark rules. -/
def defaultRulePriority : Int := 1000

/-- route.go `GetRoutesByName`: with a name, resolve it and list that
link's routes for the family; with the empty name, list every route. -/
def GetRoutesByName (iface : String) (ipfamily : Int) (k : Kern) : Except Err (List Route) :=
  if iface ≠ "" then
    match LinkByName iface k with
    | none => Except.error Err.interfaceNotFound
    | some link => Except.ok ((RouteList ipfamily k).filter (fun r => r.linkIndex == link.index))
  else Except.ok (RouteList ipfamily k)

/-- The default-route test of route.go lines 48 and 265:
`route.Dst == nil || route.Dst.IP.Equal(net.IPv4zero)`. -/
def isDefaultDst : Option IPNet → Bool
  | none => true
  | some d => IP.equal d.ip IPv4zero

/-- route.go `GetDefaultGatewayByName`: list all routes of the family,
resolve the interface, and collect gateways — the route's own gateway for
a default route on the interface's link, else the gateway of the first
multipath segment on that link. -/
def GetDefaultGatewayByName (iface : String) (ipfamily : Int) (k : Kern) :
    Except Err (List String) :=
  match GetRoutesByName "" ipfamily k with
  | Except.error e => Except.error e
  | Except.ok routes =>
    match LinkByName iface k with
    | none => Except.error Err.interfaceNotFound
    | some link =>
      Except.ok (routes.foldl (fun gws route =>
        if route.linkIndex == link.index then
          if isDefaultDst route.dst then gws ++ [ipString route.gw] else gws
        else
          if route.multiPath.length > 0 then
            match route.multiPath.find? (fun r => r.linkIndex == link.index) with
            | some r => gws ++ [ipString r.gw]
            | none => gws
          else gws) [])

/-- route.go `AddToRuleTable`: `ip rule add to <dst> lookup <table>`. -/
def AddToRuleTable (dst : Option IPNet) (ruleTable : Int) (k : Kern) :
    Except Err Unit × Kern :=
  let rule := { NewRule with table := ruleTable, dst := dst }
  match RuleAdd rule k with
  | (true, k1) => (Except.ok (), k1)
  | (false, k1) => (Except.error Err.ruleOperationFailed, k1)

/-- route.go `DelToRuleTable`: delete the rule `AddToRuleTable` adds. -/
def DelToRuleTable (dst : Option IPNet) (ruleTable : Int) (k : Kern) :
    Except Err Unit × Kern :=
  let rule := { NewRule with table := ruleTable, dst := dst }
  match RuleDel rule k with
  | (true, k1) => (Except.ok (), k1)
  | (false, k1) => (Except.error Err.ruleOperationFailed, k1)

/-- route.go `AddRuleTableWithMark`: a mark rule at the fixed default
priority. -/
def AddRuleTableWithMark (mark ruleTable ipFamily : Int) (k : Kern) :
    Except Err Unit × Kern :=
  let rule := { NewRule with
    mark := mark, table := ruleTable, family := ipFamily, priority := defaultRulePriority }
  match RuleAdd rule k with
  | (true, k1) => (Except.ok (), k1)
  | (false, k1) => (Except.error Err.ruleOperationFailed, k1)

/-- route.go `AddFromRuleTable`: `ip rule add from <cidr>`. -/
def AddFromRuleTable (src : Option IPNet) (ruleTable : Int) (k : Kern) :
    Except Err Unit × Kern :=
  let rule := { NewRule with table := ruleTable, src := src }
  match RuleAdd rule k with
  | (true, k1) => (Except.ok (), k1)
  | (false, k1) => (Except.error Err.ruleOperationFailed, k1)

/-- route.go `DelFromRuleTable`: `ip rule del from <cidr> lookup <table>`. -/
def DelFromRuleTable (src : Option IPNet) (ruleTable : Int) (k : Kern) :
    Except Err Unit × Kern :=
  let rule := { NewRule with table := ruleTable, src := src }
  match RuleDel rule k with
  | (true, k1) => (Except.ok (), k1)
  | (false, k1) => (Except.error Err.ruleOperationFailed, k1)

/-- route.go line 130: `dst != nil && dst.IP.To4() != nil`. -/
def dstIsV4 : Option IPNet → Bool
  | some d => IP.to4 d.ip ≠ []
  | none => false

/-- route.go line 134: `dst != nil && dst.IP.To4() == nil`. -/
def dstIsV6 : Option IPNet → Bool
  | some d => IP.to4 d.ip = []
  | none => false

/-- The `RouteAdd` tail shared by `AddRoute` and `MoveRouteTable`:
`if err = RouteAdd(route); err != nil && !os.IsExist(err) { fail }` —
the `EEXIST` answer counts as success. -/
def submitRoute (route : Route) (k : Kern) : Except Err Unit × Kern :=
  match RouteAdd route k with
  | (AddRes.failed, k1) => (Except.error Err.routeAddFailed, k1)
  | (_, k1) => (Except.ok (), k1)

/-- route.go `AddRoute`: build a route on the interface's link with the
given scope, destination and table, pick the gateway by family, and
submit it (idempotent on `EEXIST`). -/
def AddRoute (ruleTable ipFamily scope : Int) (iface : String) (dst : Option IPNet)
    (v4Gw v6Gw : IP) (k : Kern) : Except Err Unit × Kern :=
  match LinkByName iface k with
  | none => (Except.error Err.interfaceNotFound, k)
  | some link =>
    let route : Route := { linkIndex := link.index, scope := scope, dst := dst, table := ruleTable }
    if ipFamily = FAMILY_V4 then
      let route1 := if v4Gw ≠ [] then { route with gw := v4Gw } else route
      submitRoute route1 k
    else if ipFamily = FAMILY_V6 then
      let route1 := if v6Gw ≠ [] then { route with gw := v6Gw } else route
      submitRoute route1 k
    else if ipFamily = FAMILY_ALL then
      let route1 :=
        if dstIsV4 dst ∧ v4Gw ≠ [] then { route with gw := v4Gw } else route
      let route2 :=
        if dstIsV6 dst ∧ v6Gw ≠ [] then { route1 with gw := v6Gw } else route1
      submitRoute route2 k
    else (Except.error Err.unsupportedFamily, k)

/-- The body of `MoveRouteTable`'s loop (route.go lines 165–229): skip
routes outside the source table and the `fe80::/64` link-local route;
move a route on the interface's link by delete-then-re-add; for a
multipath route, carve out the first segment on the interface's link as a
synthetic single-nexthop route, or skip when no segment matches. -/
def moveOneRoute (link : Link) (srcRuleTable dstRuleTable : Int) (route : Route) (k : Kern) :
    Except Err Unit × Kern :=
  if route.table ≠ srcRuleTable then (Except.ok (), k)
  else if ipnetString route.dst = "fe80::/64" then (Except.ok (), k)
  else if route.linkIndex = link.index then
    match RouteDel route k with
    | (false, k1) => (Except.error Err.routeDeleteFailed, k1)
    | (true, k1) => submitRoute { route with table := dstRuleTable } k1
  else if route.multiPath.length = 0 then (Except.ok (), k)
  else
    match route.multiPath.find? (fun v => v.linkIndex == link.index) with
    | none => (Except.ok (), k)
    | some v =>
      let generatedRoute : Route :=
        { linkIndex := v.linkIndex, gw := v.gw, table := dstRuleTable, mtu := route.mtu }
      let deletedRoute : Route :=
        { linkIndex := v.linkIndex, gw := v.gw, table := srcRuleTable }
      match RouteDel deletedRoute k with
      | (false, k1) => (Except.error Err.routeDeleteFailed, k1)
      | (true, k1) => submitRoute generatedRoute k1

/-- `MoveRouteTable`'s loop over the listed routes, stopping at the first
error. -/
def moveLoop (link : Link) (srcRuleTable dstRuleTable : Int) :
    List Route → Kern → Except Err Unit × Kern
  | [], k => (Except.ok (), k)
  | route :: rest, k =>
    match moveOneRoute link srcRuleTable dstRuleTable route k with
    | (Except.ok _, k1) => moveLoop link srcRuleTable dstRuleTable rest k1
    | (Except.error e, k1) => (Except.error e, k1)

/-- route.go `MoveRouteTable`: resolve the interface, list every route of
the family, and migrate the interface's share from the source to the
destination table. -/
def MoveRouteTable (iface : String) (srcRuleTable dstRuleTable ipfamily : Int) (k : Kern) :
    Except Err Unit × Kern :=
  match LinkByName iface k with
  | none => (Except.error Err.interfaceNotFound, k)
  | some link => moveLoop link srcRuleTable dstRuleTable (RouteList ipfamily k) k

/-- route.go `getDefaultRouteIface`: resolve a link index to its name,
answering the empty string when the name equals the non-empty ignore
argument. -/
def getDefaultRouteIface (linkIndex : Int) (ignore : String) (k : Kern) : Except Err String :=
  match LinkByIndex linkIndex k with
  | none => Except.error Err.interfaceNotFound
  | some link =>
    if ignore ≠ "" ∧ link.name = ignore then Except.ok ""
    else Except.ok link.name

/-- The inner segment loop of `GetDefaultRouteInterface`'s v6 mode. -/
def v6ScanSegs (filterInterface : String) (k : Kern) :
    List NexthopInfo → Except Err String
  | [] => Except.ok ""
  | seg :: rest =>
    match getDefaultRouteIface seg.linkIndex filterInterface k with
    | Except.error e => Except.error e
    | Except.ok name => if name ≠ "" then Except.ok name else v6ScanSegs filterInterface k rest

/-- The route loop of `GetDefaultRouteInterface`'s v6 mode: only
multipath routes are inspected. -/
def v6ScanRoutes (filterInterface : String) (k : Kern) : List Route → Except Err String
  | [] => Except.ok ""
  | route :: rest =>
    if route.multiPath.length > 0 then
      match v6ScanSegs filterInterface k route.multiPath with
      | Except.error e => Except.error e
      | Except.ok name =>
        if name ≠ "" then Except.ok name else v6ScanRoutes filterInterface k rest
    else v6ScanRoutes filterInterface k rest

/-- The route loop of `GetDefaultRouteInterface`'s v4 mode: v4-family
default routes only. -/
def v4ScanRoutes (filterInterface : String) (k : Kern) : List Route → Except Err String
  | [] => Except.ok ""
  | route :: rest =>
    if route.family = FAMILY_V4 ∧ isDefaultDst route.dst then
      match getDefaultRouteIface route.linkIndex filterInterface k with
      | Except.error e => Except.error e
      | Except.ok name =>
        if name ≠ "" then Except.ok name else v4ScanRoutes filterInterface k rest
    else v4ScanRoutes filterInterface k rest

/-- route.go `GetDefaultRouteInterface`: run inside the target namespace
(the `Kern` argument is that namespace's state), scan for the interface
carrying the default route, skipping the filtered name. -/
def GetDefaultRouteInterface (ipfamily : Int) (filterInterface : String) (k : Kern) :
    Except Err String :=
  let routes := RouteList ipfamily k
  if ipfamily = FAMILY_V6 then v6ScanRoutes filterInterface k routes
  else v4ScanRoutes filterInterface k routes

/-- route.go `ConvertMaxMaskIPNet`: the host network of an address. -/
def ConvertMaxMaskIPNet (nip : IP) : IPNet :=
  if IP.to4 nip ≠ [] then { ip := nip, mask := CIDRMask 32 32 }
  else { ip := nip, mask := CIDRMask 128 128 }

/-- A kernel state with the given links and routes, empty rule list, no
kernel-side rejections, and an empty trace: the base state of the
concrete scenarios. -/
def mkKern (links : List Link) (routes : List Route) : Kern :=
  { links := links, routes := routes, rules := [],
    routeAddFail := fun _ => false, routeDelFail := fun _ => false,
    ruleAddFail := fun _ => false, trace := [] }

theorem RouteAdd_trace (r : Route) (k : Kern) :
    (RouteAdd r k).2.trace = k.trace ++ [Op.addRoute r] := by
  unfold RouteAdd
  split <;> first | rfl | (split <;> rfl)

theorem RouteAdd_links (r : Route) (k : Kern) : (RouteAdd r k).2.links = k.links := by
  unfold RouteAdd
  split <;> first | rfl | (split <;> rfl)

theorem RouteAdd_routeAddFail (r : Route) (k : Kern) :
    (RouteAdd r k).2.routeAddFail = k.routeAddFail := by
  unfold RouteAdd
  split <;> first | rfl | (split <;> rfl)

theorem RouteAdd_mem (x r : Route) (k : Kern) (hr : r ∈ k.routes) :
    r ∈ (RouteAdd x k).2.routes := by
  unfold RouteAdd
  split
  · exact hr
  · split
    · exact hr
    · exact List.mem_append_left _ hr

theorem RouteDel_trace (r : Route) (k : Kern) :
    (RouteDel r k).2.trace = k.trace ++ [Op.delRoute r] := by
  unfold RouteDel
  split <;> rfl

theorem RouteDel_links (r : Route) (k : Kern) : (RouteDel r k).2.links = k.links := by
  unfold RouteDel
  split <;> rfl

theorem RouteDel_mem (x r : Route) (k : Kern) (hr : r ∈ k.routes) (hne : r ≠ x) :
    r ∈ (RouteDel x k).2.routes := by
  unfold RouteDel
  split
  · exact hr
  · simpa using And.intro hr hne

theorem submitRoute_trace (route : Route) (k : Kern) :
    (submitRoute route k).2.trace = k.trace ++ [Op.addRoute route] := by
  have h := RouteAdd_trace route k
  unfold submitRoute
  split <;> rename_i heq <;> rw [heq] at h <;> exact h

theorem submitRoute_links (route : Route) (k : Kern) :
    (submitRoute route k).2.links = k.links := by
  have h := RouteAdd_links route k
  unfold submitRoute
  split <;> rename_i heq <;> rw [heq] at h <;> exact h

theorem submitRoute_routeAddFail (route : Route) (k : Kern) :
    (submitRoute route k).2.routeAddFail = k.routeAddFail := by
  have h := RouteAdd_routeAddFail route k
  unfold submitRoute
  split <;> rename_i heq <;> rw [heq] at h <;> exact h

theorem submitRoute_mem (x r : Route) (k : Kern) (hr : r ∈ k.routes) :
    r ∈ (submitRoute x k).2.routes := by
  have h := RouteAdd_mem x r k hr
  unfold submitRoute
  split <;> rename_i heq <;> rw [heq] at h <;> exact h

theorem submitRoute_fst_err (route : Route) (k : Kern) (h : k.routeAddFail route = true) :
    (submitRoute route k).1 = Except.error Err.routeAddFailed := by
  unfold submitRoute RouteAdd
  simp [h]

theorem submitRoute_fst_ok (route : Route) (k : Kern) (h : k.routeAddFail route = false) :
    (submitRoute route k).1 = Except.ok () := by
  unfold submitRoute RouteAdd
  simp only [h, Bool.false_eq_true, if_false]
  split <;> rename_i heq <;> split at heq <;> simp_all

theorem LinkByName_links (iface : String) (k1 k2 : Kern) (h : k1.links = k2.links) :
    LinkByName iface k1 = LinkByName iface k2 := by
  unfold LinkByName
  rw [h]

theorem submitRoute_ok_of_fst (route : Route) (k : Kern)
    (h : (submitRoute route k).1 = Except.ok ()) : k.routeAddFail route = false := by
  cases hf : k.routeAddFail route
  · rfl
  · rw [submitRoute_fst_err route k hf] at h
    exact absurd h (by simp)

theorem submitRoute_fst_cases (route : Route) (k : Kern) :
    (submitRoute route k).1 = Except.ok () ∨
      (submitRoute route k).1 = Except.error Err.routeAddFailed := by
  cases hf : k.routeAddFail route
  · exact Or.inl (submitRoute_fst_ok route k hf)
  · exact Or.inr (submitRoute_fst_err route k hf)

theorem RuleAdd_trace (r : Rule) (k : Kern) :
    (RuleAdd r k).2.trace = k.trace ++ [Op.addRule r] := by
  unfold RuleAdd
  split <;> rfl

/-- C8: for every mark, table and family, `AddRuleTableWithMark` submits
exactly one policy rule, whose mark, table and family are the given ones
and whose priority is the fixed default 1000. -/
theorem addRuleTableWithMark_submits (mark ruleTable ipFamily : Int) (k : Kern) :
    (AddRuleTableWithMark mark ruleTable ipFamily k).2.trace =
      k.trace ++ [Op.addRule { priority := 1000, family := ipFamily, table := ruleTable,
                               mark := mark, dst := none, src := none }] := by
  have h := RuleAdd_trace { priority := 1000, family := ipFamily, table := ruleTable,
                            mark := mark, dst := none, src := none } k
  unfold AddRuleTableWithMark
  dsimp only [NewRule, defaultRulePriority]
  split <;> rename_i heq <;> rw [heq] at h <;> exact h

/-- C9: starting from a state with no policy rule matching the
destination/table pair, a successful `AddToRuleTable` followed by
`DelToRuleTable` with the same arguments succeeds and leaves no rule
matching the pair; the delete submits a descriptor with exactly the same
destination and table fields as the add (the traced descriptors are
identical). -/
theorem addDelToRuleTable_roundtrip (dst : Option IPNet) (ruleTable : Int) (k : Kern)
    (hnone : ∀ ru ∈ k.rules, ¬(ru.dst = dst ∧ ru.table = ruleTable))
    (hok : k.ruleAddFail { NewRule with table := ruleTable, dst := dst } = false) :
    (AddToRuleTable dst ruleTable k).1 = Except.ok () ∧
    (DelToRuleTable dst ruleTable (AddToRuleTable dst ruleTable k).2).1 = Except.ok () ∧
    (∀ ru ∈ (DelToRuleTable dst ruleTable (AddToRuleTable dst ruleTable k).2).2.rules,
        ¬(ru.dst = dst ∧ ru.table = ruleTable)) ∧
    (DelToRuleTable dst ruleTable (AddToRuleTable dst ruleTable k).2).2.trace =
      k.trace ++ [Op.addRule { NewRule with table := ruleTable, dst := dst },
                  Op.delRule { NewRule with table := ruleTable, dst := dst }] := by
  have hmem : ({ NewRule with table := ruleTable, dst := dst } : Rule) ∉ k.rules := by
    intro hmemR
    exact hnone _ hmemR ⟨rfl, rfl⟩
  have hadd2 : (AddToRuleTable dst ruleTable k).2 =
      { k with rules := k.rules ++ [{ NewRule with table := ruleTable, dst := dst }],
               trace := k.trace ++ [Op.addRule { NewRule with table := ruleTable, dst := dst }] } := by
    unfold AddToRuleTable RuleAdd
    simp [hok]
  have hadd1 : (AddToRuleTable dst ruleTable k).1 = Except.ok () := by
    unfold AddToRuleTable RuleAdd
    simp [hok]
  have hmemA : ({ NewRule with table := ruleTable, dst := dst } : Rule) ∈
      (AddToRuleTable dst ruleTable k).2.rules := by
    rw [hadd2]
    simp
  have herase : (AddToRuleTable dst ruleTable k).2.rules.erase
      { NewRule with table := ruleTable, dst := dst } = k.rules := by
    rw [hadd2]
    simp only
    rw [List.erase_append_right _ hmem, List.erase_cons_head]
    simp
  refine ⟨hadd1, ?_, ?_, ?_⟩
  · unfold DelToRuleTable RuleDel
    simp [hmemA]
  · intro ru hru
    apply hnone
    unfold DelToRuleTable RuleDel at hru
    simp only [hmemA, if_true, if_pos] at hru
    rw [herase] at hru
    exact hru
  · unfold DelToRuleTable RuleDel
    simp only [hmemA, if_true, if_pos]
    rw [hadd2]
    simp

/-- Witness for C9 at destination `10.0.0.0/24`, table 100, on an empty
kernel. -/
theorem addDelToRuleTable_roundtrip_witness :
    (∀ ru ∈ (mkKern [] []).rules,
        ¬(ru.dst = some ⟨[10,0,0,0], CIDRMask 24 32⟩ ∧ ru.table = 100)) ∧
    ((AddToRuleTable (some ⟨[10,0,0,0], CIDRMask 24 32⟩) 100 (mkKern [] [])).1 = Except.ok () ∧
     (DelToRuleTable (some ⟨[10,0,0,0], CIDRMask 24 32⟩) 100
        (AddToRuleTable (some ⟨[10,0,0,0], CIDRMask 24 32⟩) 100 (mkKern [] [])).2).1 =
          Except.ok () ∧
     (∀ ru ∈ (DelToRuleTable (some ⟨[10,0,0,0], CIDRMask 24 32⟩) 100
        (AddToRuleTable (some ⟨[10,0,0,0], CIDRMask 24 32⟩) 100 (mkKern [] [])).2).2.rules,
        ¬(ru.dst = some ⟨[10,0,0,0], CIDRMask 24 32⟩ ∧ ru.table = 100)) ∧
     (DelToRuleTable (some ⟨[10,0,0,0], CIDRMask 24 32⟩) 100
        (AddToRuleTable (some ⟨[10,0,0,0], CIDRMask 24 32⟩) 100 (mkKern [] [])).2).2.trace =
      (mkKern [] []).trace ++
        [Op.addRule { NewRule with table := 100, dst := some ⟨[10,0,0,0], CIDRMask 24 32⟩ },
         Op.delRule { NewRule with table := 100, dst := some ⟨[10,0,0,0], CIDRMask 24 32⟩ }]) :=
  ⟨by simp [mkKern],
   addDelToRuleTable_roundtrip (some ⟨[10,0,0,0], CIDRMask 24 32⟩) 100 (mkKern [] [])
     (by simp [mkKern]) (by rfl)⟩

/-- Concrete kernel for the `AddRoute` scenarios: a single interface
`eth0` with link index 1 and nothing else. -/
def addRouteKern : Kern := mkKern [⟨"eth0", 1⟩] []

/-- The IPv6 address `2001:db8::1`, used as a sample v6 gateway. -/
def sampleV6Gw : IP := [32, 1, 13, 184, 0, 0, 0, 0, 0, 0, 0, 0, 0, 0, 0, 1]

/-- The IPv4 address `10.1.1.1`, used as a sample v4 gateway. -/
def sampleV4Gw : IP := [10, 1, 1, 1]

/-- C10: `AddRoute` with family `FAMILY_ALL` and a nil destination
submits a route carrying no gateway at all, whatever v4 and v6 gateways
(non-nil or not) are supplied: both selection branches for this family
require a non-nil destination. -/
theorem addRoute_both_nil_dst_no_gateway (ruleTable scope : Int) (iface : String)
    (v4Gw v6Gw : IP) (k : Kern) (link : Link)
    (hlink : LinkByName iface k = some link) :
    (AddRoute ruleTable FAMILY_ALL scope iface none v4Gw v6Gw k).2.trace =
      k.trace ++ [Op.addRoute { linkIndex := link.index, scope := scope, dst := none,
                                table := ruleTable, gw := [] }] := by
  unfold AddRoute
  rw [hlink]
  dsimp only
  rw [if_neg (by decide), if_neg (by decide), if_pos rfl, submitRoute_trace]
  simp [dstIsV4, dstIsV6]

/-- Witness for C10: both gateways supplied non-nil, yet the single
submitted route has an empty gateway. -/
theorem addRoute_both_nil_dst_no_gateway_witness :
    LinkByName "eth0" addRouteKern = some ⟨"eth0", 1⟩ ∧
    (AddRoute 100 FAMILY_ALL 0 "eth0" none sampleV4Gw sampleV6Gw addRouteKern).2.trace =
      addRouteKern.trace ++ [Op.addRoute { linkIndex := (1 : Int), scope := 0, dst := none,
                                           table := 100, gw := [] }] :=
  ⟨by decide,
   addRoute_both_nil_dst_no_gateway 100 0 "eth0" sampleV4Gw sampleV6Gw addRouteKern
     ⟨"eth0", 1⟩ (by decide)⟩

/-- Counterexample to C3 as stated: with family `FAMILY_ALL`, a nil
destination and a non-nil `ipv6Gateway`, the claim's selection rule
("`ipv6Gateway` otherwise") would put `2001:db8::1` on the submitted
route, but the code submits the route with no gateway. -/
theorem addRoute_gateway_selection_cex :
    (AddRoute 100 FAMILY_ALL 0 "eth0" none [] sampleV6Gw addRouteKern).2.trace =
      [Op.addRoute { linkIndex := 1, scope := 0, dst := none, table := 100, gw := [] }] ∧
    sampleV6Gw ≠ ([] : IP) ∧
    ([] : IP) ≠ sampleV6Gw := by decide

/-- C3 (amended): `AddRoute` gateway selection by family, once the
interface resolves: for v4 the submitted route's gateway is `v4Gw`; for
v6 it is `v6Gw`; for "both" it is picked by the destination's address
form when the destination is non-nil (`v4Gw` for an IPv4 destination,
`v6Gw` otherwise) and left empty when the destination is nil; any family
outside the recognized set fails with `unsupportedFamily` and submits no
route. -/
theorem addRoute_gateway_selection (ruleTable ipFamily scope : Int) (iface : String)
    (dst : Option IPNet) (v4Gw v6Gw : IP) (k : Kern) (link : Link)
    (hlink : LinkByName iface k = some link) :
    (ipFamily = FAMILY_V4 →
      (AddRoute ruleTable ipFamily scope iface dst v4Gw v6Gw k).2.trace =
        k.trace ++ [Op.addRoute { linkIndex := link.index, scope := scope, dst := dst,
                                  table := ruleTable, gw := v4Gw }]) ∧
    (ipFamily = FAMILY_V6 →
      (AddRoute ruleTable ipFamily scope iface dst v4Gw v6Gw k).2.trace =
        k.trace ++ [Op.addRoute { linkIndex := link.index, scope := scope, dst := dst,
                                  table := ruleTable, gw := v6Gw }]) ∧
    (ipFamily = FAMILY_ALL →
      (AddRoute ruleTable ipFamily scope iface dst v4Gw v6Gw k).2.trace =
        k.trace ++ [Op.addRoute { linkIndex := link.index, scope := scope, dst := dst,
                                  table := ruleTable,
                                  gw := match dst with
                                        | none => []
                                        | some d => if IP.to4 d.ip ≠ [] then v4Gw else v6Gw }]) ∧
    (ipFamily ≠ FAMILY_V4 → ipFamily ≠ FAMILY_V6 → ipFamily ≠ FAMILY_ALL →
      AddRoute ruleTable ipFamily scope iface dst v4Gw v6Gw k =
        (Except.error Err.unsupportedFamily, k)) := by
  refine ⟨?_, ?_, ?_, ?_⟩
  · intro h
    subst h
    unfold AddRoute
    rw [hlink]
    dsimp only
    rw [if_pos rfl, submitRoute_trace]
    by_cases hv : v4Gw = [] <;> simp [hv]
  · intro h
    subst h
    unfold AddRoute
    rw [hlink]
    dsimp only
    rw [if_neg (by decide), if_pos rfl, submitRoute_trace]
    by_cases hv : v6Gw = [] <;> simp [hv]
  · intro h
    subst h
    unfold AddRoute
    rw [hlink]
    dsimp only
    rw [if_neg (by decide), if_neg (by decide), if_pos rfl, submitRoute_trace]
    match dst with
    | none => simp [dstIsV4, dstIsV6]
    | some d =>
      by_cases h4 : IP.to4 d.ip = [] <;>
        by_cases hv : v6Gw = [] <;> by_cases hw : v4Gw = [] <;>
          simp [dstIsV4, dstIsV6, h4, hv, hw]
  · intro h1 h2 h3
    unfold AddRoute
    rw [hlink]
    dsimp only
    rw [if_neg h1, if_neg h2, if_neg h3]

/-- Witness for the amended C3 at family "both" with an IPv4 destination:
the submitted route carries the v4 gateway. -/
theorem addRoute_gateway_selection_witness :
    LinkByName "eth0" addRouteKern = some ⟨"eth0", 1⟩ ∧
    (AddRoute 100 FAMILY_ALL 0 "eth0" (some ⟨[10, 0, 0, 0], CIDRMask 24 32⟩)
        sampleV4Gw sampleV6Gw addRouteKern).2.trace =
      addRouteKern.trace ++
        [Op.addRoute { linkIndex := (1 : Int), scope := 0,
                       dst := some ⟨[10, 0, 0, 0], CIDRMask 24 32⟩, table := 100,
                       gw := if IP.to4 [10, 0, 0, 0] ≠ [] then sampleV4Gw else sampleV6Gw }] :=
  ⟨by decide,
   (addRoute_gateway_selection 100 FAMILY_ALL 0 "eth0"
      (some ⟨[10, 0, 0, 0], CIDRMask 24 32⟩) sampleV4Gw sampleV6Gw addRouteKern
      ⟨"eth0", 1⟩ (by decide)).2.2.1 rfl⟩

/-- The route `AddRoute` submits once the interface has resolved and the
family is recognized: a function of the link and the arguments only. -/
def builtRoute (link : Link) (ruleTable ipFamily scope : Int) (dst : Option IPNet)
    (v4Gw v6Gw : IP) : Route :=
  let route : Route := { linkIndex := link.index, scope := scope, dst := dst, table := ruleTable }
  if ipFamily = FAMILY_V4 then (if v4Gw ≠ [] then { route with gw := v4Gw } else route)
  else if ipFamily = FAMILY_V6 then (if v6Gw ≠ [] then { route with gw := v6Gw } else route)
  else
    let route1 := if dstIsV4 dst ∧ v4Gw ≠ [] then { route with gw := v4Gw } else route
    if dstIsV6 dst ∧ v6Gw ≠ [] then { route1 with gw := v6Gw } else route1

theorem AddRoute_eq_submit (ruleTable ipFamily scope : Int) (iface : String)
    (dst : Option IPNet) (v4Gw v6Gw : IP) (k : Kern) (link : Link)
    (hl : LinkByName iface k = some link)
    (hf : ipFamily = FAMILY_V4 ∨ ipFamily = FAMILY_V6 ∨ ipFamily = FAMILY_ALL) :
    AddRoute ruleTable ipFamily scope iface dst v4Gw v6Gw k =
      submitRoute (builtRoute link ruleTable ipFamily scope dst v4Gw v6Gw) k := by
  unfold AddRoute builtRoute
  rw [hl]
  dsimp only
  rcases hf with h | h | h <;> subst h <;>
    split_ifs <;>
      first
      | rfl
      | (exfalso; simp_all [FAMILY_V4, FAMILY_V6, FAMILY_ALL])

theorem AddRoute_links (ruleTable ipFamily scope : Int) (iface : String)
    (dst : Option IPNet) (v4Gw v6Gw : IP) (k : Kern) :
    (AddRoute ruleTable ipFamily scope iface dst v4Gw v6Gw k).2.links = k.links := by
  unfold AddRoute
  cases hl : LinkByName iface k
  · rfl
  · dsimp only
    split_ifs <;> first | rfl | exact submitRoute_links _ _

theorem AddRoute_routeAddFail (ruleTable ipFamily scope : Int) (iface : String)
    (dst : Option IPNet) (v4Gw v6Gw : IP) (k : Kern) :
    (AddRoute ruleTable ipFamily scope iface dst v4Gw v6Gw k).2.routeAddFail =
      k.routeAddFail := by
  unfold AddRoute
  cases hl : LinkByName iface k
  · rfl
  · dsimp only
    split_ifs <;> first | rfl | exact submitRoute_routeAddFail _ _

/-- C5: when `AddRoute` succeeds, a second call with identical arguments
succeeds as well (the kernel's "already exists" answer counts as
success); and once the interface resolves and the family is recognized,
the call either succeeds or surfaces the kernel rejection as
`routeAddFailed`. -/
theorem addRoute_idempotent (ruleTable ipFamily scope : Int) (iface : String)
    (dst : Option IPNet) (v4Gw v6Gw : IP) (k : Kern) :
    ((AddRoute ruleTable ipFamily scope iface dst v4Gw v6Gw k).1 = Except.ok () →
      (AddRoute ruleTable ipFamily scope iface dst v4Gw v6Gw
        (AddRoute ruleTable ipFamily scope iface dst v4Gw v6Gw k).2).1 = Except.ok ()) ∧
    (∀ link, LinkByName iface k = some link →
      (ipFamily = FAMILY_V4 ∨ ipFamily = FAMILY_V6 ∨ ipFamily = FAMILY_ALL) →
      ((AddRoute ruleTable ipFamily scope iface dst v4Gw v6Gw k).1 = Except.ok () ∨
       (AddRoute ruleTable ipFamily scope iface dst v4Gw v6Gw k).1 =
         Except.error Err.routeAddFailed)) := by
  constructor
  · intro h
    cases hl : LinkByName iface k with
    | none =>
      unfold AddRoute at h
      rw [hl] at h
      exact absurd h (by simp)
    | some link =>
      by_cases hf : ipFamily = FAMILY_V4 ∨ ipFamily = FAMILY_V6 ∨ ipFamily = FAMILY_ALL
      · have he := AddRoute_eq_submit ruleTable ipFamily scope iface dst v4Gw v6Gw k link hl hf
        have hlinks : (AddRoute ruleTable ipFamily scope iface dst v4Gw v6Gw k).2.links =
            k.links := AddRoute_links _ _ _ _ _ _ _ _
        have hl2 : LinkByName iface (AddRoute ruleTable ipFamily scope iface dst v4Gw v6Gw k).2 =
            some link := by
          rw [LinkByName_links iface _ k hlinks]
          exact hl
        rw [AddRoute_eq_submit ruleTable ipFamily scope iface dst v4Gw v6Gw _ link hl2 hf]
        apply submitRoute_fst_ok
        rw [AddRoute_routeAddFail]
        exact submitRoute_ok_of_fst _ _ (he ▸ h)
      · push_neg at hf
        unfold AddRoute at h
        rw [hl] at h
        dsimp only at h
        rw [if_neg hf.1, if_neg hf.2.1, if_neg hf.2.2] at h
        exact absurd h (by simp)
  · intro link hl hf
    rw [AddRoute_eq_submit ruleTable ipFamily scope iface dst v4Gw v6Gw k link hl hf]
    exact submitRoute_fst_cases _ _

/-- Witness for C5: a concrete successful v4 default-route add, repeated. -/
theorem addRoute_idempotent_witness :
    (AddRoute 100 FAMILY_V4 0 "eth0" none sampleV4Gw [] addRouteKern).1 = Except.ok () ∧
    (AddRoute 100 FAMILY_V4 0 "eth0" none sampleV4Gw []
      (AddRoute 100 FAMILY_V4 0 "eth0" none sampleV4Gw [] addRouteKern).2).1 = Except.ok () :=
  ⟨by decide,
   (addRoute_idempotent 100 FAMILY_V4 0 "eth0" none sampleV4Gw [] addRouteKern).1 (by decide)⟩

/-- The gateway collection exactly as C2's sentence describes it: for
each route on the interface's link whose destination is nil or the
all-zeros IPv4 address, the route's top-level gateway; for each other
route with multipath segments, the gateway of the first segment whose
link index equals the interface's. -/
def claimGateways (idx : Int) (routes : List Route) : List String :=
  routes.filterMap (fun route =>
    if route.linkIndex == idx then
      if isDefaultDst route.dst then some (ipString route.gw) else none
    else
      match route.multiPath.find? (fun s => s.linkIndex == idx) with
      | some s => some (ipString s.gw)
      | none => none)

theorem gwFold_eq (idx : Int) (routes : List Route) (acc : List String) :
    routes.foldl (fun gws route =>
        if route.linkIndex == idx then
          if isDefaultDst route.dst then gws ++ [ipString route.gw] else gws
        else
          if route.multiPath.length > 0 then
            match route.multiPath.find? (fun r => r.linkIndex == idx) with
            | some r => gws ++ [ipString r.gw]
            | none => gws
          else gws) acc = acc ++ claimGateways idx routes := by
  induction routes generalizing acc with
  | nil => simp [claimGateways]
  | cons route rest ih =>
    rw [List.foldl_cons, ih]
    by_cases h1 : route.linkIndex = idx
    · by_cases h2 : isDefaultDst route.dst = true <;>
        simp [claimGateways, h1, h2, List.append_assoc]
    · cases hf : route.multiPath.find? (fun s => s.linkIndex == idx) with
      | none =>
        by_cases h3 : route.multiPath.length > 0 <;>
          simp [claimGateways, h1, h3, hf]
      | some s =>
        have h3 : route.multiPath.length > 0 := by
          cases hm : route.multiPath
          · rw [hm] at hf
            simp at hf
          · simp [hm]
        simp [claimGateways, h1, h3, hf, List.append_assoc]

/-- C2: once the interface resolves, `GetDefaultGatewayByName` lists all
routes of the family (unfiltered by interface) and returns exactly the
gateways the claim describes: top-level gateways of the interface's
default routes, and first-matching-segment gateways of other multipath
routes. -/
theorem getDefaultGatewayByName_spec (iface : String) (ipfamily : Int) (k : Kern) (link : Link)
    (hlink : LinkByName iface k = some link) :
    GetDefaultGatewayByName iface ipfamily k =
      Except.ok (claimGateways link.index (RouteList ipfamily k)) := by
  unfold GetDefaultGatewayByName GetRoutesByName
  rw [if_neg (by simp)]
  dsimp only
  rw [hlink]
  dsimp only
  rw [gwFold_eq]
  simp

/-- Concrete kernel for the C2 scenario: `net1` (link 2) appears only as
the second nexthop, gateway `2001:db8::1`, of a shared IPv6 multipath
default route whose top-level entry is bound to no link. -/
def gwKern : Kern :=
  mkKern [⟨"eth0", 1⟩, ⟨"net1", 2⟩]
    [{ table := 254, family := 10,
       multiPath := [⟨1, [32, 1, 13, 184, 0, 0, 0, 0, 0, 0, 0, 0, 0, 0, 0, 2]⟩,
                     ⟨2, sampleV6Gw⟩] }]

/-- Witness for C2: on `gwKern`, the interface appearing only as one
nexthop of the shared IPv6 multipath default yields exactly
`["2001:db8::1"]`. -/
theorem getDefaultGatewayByName_spec_witness :
    LinkByName "net1" gwKern = some ⟨"net1", 2⟩ ∧
    claimGateways 2 (RouteList FAMILY_V6 gwKern) = ["2001:db8::1"] ∧
    GetDefaultGatewayByName "net1" FAMILY_V6 gwKern =
      Except.ok (claimGateways (2 : Int) (RouteList FAMILY_V6 gwKern)) :=
  ⟨by decide, by decide,
   getDefaultGatewayByName_spec "net1" FAMILY_V6 gwKern ⟨"net1", 2⟩ (by decide)⟩

theorem getDefaultRouteIface_ne (linkIndex : Int) (flt : String) (k : Kern) (s : String)
    (h : getDefaultRouteIface linkIndex flt k = Except.ok s) (hflt : flt ≠ "") : s ≠ flt := by
  unfold getDefaultRouteIface at h
  cases hl : LinkByIndex linkIndex k with
  | none =>
    rw [hl] at h
    cases h
  | some link =>
    rw [hl] at h
    dsimp only at h
    by_cases hc : flt ≠ "" ∧ link.name = flt
    · rw [if_pos hc] at h
      injection h with h2
      rw [← h2]
      exact fun hh => hflt hh.symm
    · rw [if_neg hc] at h
      injection h with h2
      intro hs
      exact hc ⟨hflt, by rw [h2, hs]⟩

theorem v4ScanRoutes_ne (flt : String) (k : Kern) (routes : List Route) (s : String)
    (h : v4ScanRoutes flt k routes = Except.ok s) (hflt : flt ≠ "") : s ≠ flt := by
  induction routes with
  | nil =>
    unfold v4ScanRoutes at h
    injection h with h2
    rw [← h2]
    exact fun hh => hflt hh.symm
  | cons route rest ih =>
    unfold v4ScanRoutes at h
    by_cases hc : route.family = FAMILY_V4 ∧ isDefaultDst route.dst = true
    · rw [if_pos hc] at h
      cases hg : getDefaultRouteIface route.linkIndex flt k with
      | error e =>
        rw [hg] at h
        cases h
      | ok name =>
        rw [hg] at h
        dsimp only at h
        by_cases hn : name ≠ ""
        · rw [if_pos hn] at h
          injection h with h2
          rw [← h2]
          exact getDefaultRouteIface_ne _ _ _ _ hg hflt
        · rw [if_neg hn] at h
          exact ih h
    · rw [if_neg hc] at h
      exact ih h

theorem v6ScanSegs_ne (flt : String) (k : Kern) (segs : List NexthopInfo) (s : String)
    (h : v6ScanSegs flt k segs = Except.ok s) (hflt : flt ≠ "") : s ≠ flt := by
  induction segs with
  | nil =>
    unfold v6ScanSegs at h
    injection h with h2
    rw [← h2]
    exact fun hh => hflt hh.symm
  | cons seg rest ih =>
    unfold v6ScanSegs at h
    cases hg : getDefaultRouteIface seg.linkIndex flt k with
    | error e =>
      rw [hg] at h
      cases h
    | ok name =>
      rw [hg] at h
      dsimp only at h
      by_cases hn : name ≠ ""
      · rw [if_pos hn] at h
        injection h with h2
        rw [← h2]
        exact getDefaultRouteIface_ne _ _ _ _ hg hflt
      · rw [if_neg hn] at h
        exact ih h

theorem v6ScanRoutes_ne (flt : String) (k : Kern) (routes : List Route) (s : String)
    (h : v6ScanRoutes flt k routes = Except.ok s) (hflt : flt ≠ "") : s ≠ flt := by
  induction routes with
  | nil =>
    unfold v6ScanRoutes at h
    injection h with h2
    rw [← h2]
    exact fun hh => hflt hh.symm
  | cons route rest ih =>
    unfold v6ScanRoutes at h
    by_cases hm : route.multiPath.length > 0
    · rw [if_pos hm] at h
      cases hs : v6ScanSegs flt k route.multiPath with
      | error e =>
        rw [hs] at h
        cases h
      | ok name =>
        rw [hs] at h
        dsimp only at h
        by_cases hn : name ≠ ""
        · rw [if_pos hn] at h
          injection h with h2
          rw [← h2]
          exact v6ScanSegs_ne flt k _ name hs hflt
        · rw [if_neg hn] at h
          exact ih h
    · rw [if_neg hm] at h
      exact ih h

theorem v4ScanRoutes_all_filtered (flt : String) (k : Kern) (routes : List Route)
    (hflt : flt ≠ "")
    (hall : ∀ r ∈ routes, r.family = FAMILY_V4 → isDefaultDst r.dst = true →
      ∃ l, LinkByIndex r.linkIndex k = some l ∧ l.name = flt) :
    v4ScanRoutes flt k routes = Except.ok "" := by
  induction routes with
  | nil => rfl
  | cons route rest ih =>
    unfold v4ScanRoutes
    by_cases hc : route.family = FAMILY_V4 ∧ isDefaultDst route.dst = true
    · rw [if_pos hc]
      obtain ⟨l, hl, hname⟩ := hall route (by simp) hc.1 hc.2
      have hg : getDefaultRouteIface route.linkIndex flt k = Except.ok "" := by
        unfold getDefaultRouteIface
        rw [hl]
        dsimp only
        rw [if_pos ⟨hflt, hname⟩]
      rw [hg]
      dsimp only
      rw [if_neg (by simp)]
      exact ih (fun r hr => hall r (by simp [hr]))
    · rw [if_neg hc]
      exact ih (fun r hr => hall r (by simp [hr]))

/-- C6: `GetDefaultRouteInterface` never returns the (non-empty) excluded
interface name — an interface whose name equals the exclude argument is
skipped even when it carries a default route — and in v4 mode, when every
v4 default route resolves to the excluded interface, the function returns
an empty interface name with no error. -/
theorem getDefaultRouteInterface_excludes (ipfamily : Int) (flt : String) (k : Kern) :
    (∀ s, GetDefaultRouteInterface ipfamily flt k = Except.ok s → flt ≠ "" → s ≠ flt) ∧
    (flt ≠ "" →
      (∀ r ∈ RouteList FAMILY_V4 k, r.family = FAMILY_V4 → isDefaultDst r.dst = true →
        ∃ l, LinkByIndex r.linkIndex k = some l ∧ l.name = flt) →
      GetDefaultRouteInterface FAMILY_V4 flt k = Except.ok "") := by
  constructor
  · intro s h hflt
    unfold GetDefaultRouteInterface at h
    dsimp only at h
    by_cases h6 : ipfamily = FAMILY_V6
    · rw [if_pos h6] at h
      exact v6ScanRoutes_ne flt k _ s h hflt
    · rw [if_neg h6] at h
      exact v4ScanRoutes_ne flt k _ s h hflt
  · intro hflt hall
    unfold GetDefaultRouteInterface
    dsimp only
    rw [if_neg (by decide)]
    exact v4ScanRoutes_all_filtered flt k _ hflt hall

/-- Kernel for the C6 scenario with a fallback: `eth0` and `eth1` both
carry v4 default routes. -/
def locKernTwo : Kern :=
  mkKern [⟨"eth0", 1⟩, ⟨"eth1", 2⟩]
    [{ linkIndex := 1, family := 2, gw := [192, 0, 2, 1] },
     { linkIndex := 2, family := 2, gw := [192, 0, 2, 2] }]

/-- Kernel for the C6 scenario with no fallback: only `eth0` carries a
v4 default route. -/
def locKernOne : Kern :=
  mkKern [⟨"eth0", 1⟩] [{ linkIndex := 1, family := 2, gw := [192, 0, 2, 1] }]

/-- Witness for C6: excluding `eth0` yields the next matching interface
`eth1` (and the theorem gives `eth1 ≠ eth0`); when `eth0` is the only
interface with a default route, the result is the empty name. -/
theorem getDefaultRouteInterface_excludes_witness :
    GetDefaultRouteInterface FAMILY_V4 "eth0" locKernTwo = Except.ok "eth1" ∧
    ("eth1" : String) ≠ "eth0" ∧
    GetDefaultRouteInterface FAMILY_V4 "eth0" locKernOne = Except.ok "" :=
  ⟨by decide,
   (getDefaultRouteInterface_excludes FAMILY_V4 "eth0" locKernTwo).1 "eth1" (by decide)
     (by decide),
   (getDefaultRouteInterface_excludes FAMILY_V4 "eth0" locKernOne).2 (by decide)
     (fun r hr _ _ => by
       have hr1 : r = { linkIndex := 1, family := 2, gw := [192, 0, 2, 1] } :=
         (by simpa [locKernOne, mkKern, RouteList] using hr :
           r = { linkIndex := 1, family := 2, gw := [192, 0, 2, 1] } ∧
             (FAMILY_V4 = FAMILY_ALL ∨ r.family = FAMILY_V4)).1
       exact ⟨⟨"eth0", 1⟩, by rw [hr1]; decide, rfl⟩)⟩

theorem moveOneRoute_skip (link : Link) (src dstT : Int) (route : Route) (k : Kern)
    (h : route.table = src →
      route.linkIndex ≠ link.index ∧ ∀ s ∈ route.multiPath, s.linkIndex ≠ link.index) :
    moveOneRoute link src dstT route k = (Except.ok (), k) := by
  unfold moveOneRoute
  by_cases ht : route.table ≠ src
  · rw [if_pos ht]
  · rw [if_neg ht]
    have hb := h (not_not.mp ht)
    by_cases hf : ipnetString route.dst = "fe80::/64"
    · rw [if_pos hf]
    · rw [if_neg hf, if_neg hb.1]
      by_cases hlen : route.multiPath.length = 0
      · rw [if_pos hlen]
      · rw [if_neg hlen]
        have hfind : route.multiPath.find? (fun v => v.linkIndex == link.index) = none := by
          rw [List.find?_eq_none]
          intro s hs
          simpa using hb.2 s hs
        rw [hfind]

theorem moveLoop_noop (link : Link) (src dstT : Int) (routes : List Route) (k : Kern)
    (h : ∀ r ∈ routes, r.table = src →
      r.linkIndex ≠ link.index ∧ ∀ s ∈ r.multiPath, s.linkIndex ≠ link.index) :
    moveLoop link src dstT routes k = (Except.ok (), k) := by
  induction routes generalizing k with
  | nil => rfl
  | cons route rest ih =>
    unfold moveLoop
    rw [moveOneRoute_skip link src dstT route k (h route (by simp))]
    exact ih k (fun r hr => h r (by simp [hr]))

/-- C7: when the interface resolves to a link and owns no route in the
source table — no listed source-table route sits on its link or carries a
multipath segment on its link — `MoveRouteTable` performs no route
deletion or addition, leaves the kernel unchanged and returns no error;
and any route whose table differs from the source table is skipped with
the kernel untouched. -/
theorem moveRouteTable_noop (iface : String) (src dstT fam : Int) (k : Kern) (link : Link)
    (hlink : LinkByName iface k = some link)
    (hnone : ∀ r ∈ RouteList fam k, r.table = src →
      r.linkIndex ≠ link.index ∧ ∀ s ∈ r.multiPath, s.linkIndex ≠ link.index) :
    MoveRouteTable iface src dstT fam k = (Except.ok (), k) ∧
    (∀ route k0, route.table ≠ src →
      moveOneRoute link src dstT route k0 = (Except.ok (), k0)) := by
  constructor
  · unfold MoveRouteTable
    rw [hlink]
    exact moveLoop_noop link src dstT _ k hnone
  · intro route k0 hne
    unfold moveOneRoute
    rw [if_pos hne]

/-- Kernel for the C7 scenario: `net1` (link 2) owns no route in table
254; the main table holds only `eth0`'s default route, and `net1`'s own
route already sits in table 100. -/
def noopKern : Kern :=
  mkKern [⟨"eth0", 1⟩, ⟨"net1", 2⟩]
    [{ linkIndex := 1, table := 254, family := 2, gw := [192, 0, 2, 1] },
     { linkIndex := 2, table := 100, family := 2, gw := [10, 1, 1, 1] }]

/-- Witness for C7: migrating `net1` out of table 254 is a no-op. -/
theorem moveRouteTable_noop_witness :
    MoveRouteTable "net1" 254 100 0 noopKern = (Except.ok (), noopKern) :=
  (moveRouteTable_noop "net1" 254 100 0 noopKern ⟨"net1", 2⟩ (by decide) (by decide)).1

/-- C1: for a listed source-table route that is not the interface's own
top-level route and carries multipath segments, `moveOneRoute` with a
matching first segment builds the generated single-nexthop route
(segment link and gateway, destination table, the route's MTU) and the
deletion descriptor (same link and gateway, source table), deletes the
descriptor first and then adds the generated route — the conclusion needs
only that the kernel does not reject either call, so an "already exists"
answer on the add still yields success — and skips the route entirely
when no segment matches the interface's link. -/
theorem moveRouteTable_multipath (link : Link) (src dstT : Int) (route : Route) (k : Kern)
    (h1 : route.table = src) (h2 : ipnetString route.dst ≠ "fe80::/64")
    (h3 : route.linkIndex ≠ link.index) :
    (∀ v, route.multiPath.find? (fun s => s.linkIndex == link.index) = some v →
      k.routeDelFail { linkIndex := v.linkIndex, gw := v.gw, table := src } = false →
      k.routeAddFail { linkIndex := v.linkIndex, gw := v.gw, table := dstT,
                       mtu := route.mtu } = false →
      (moveOneRoute link src dstT route k).1 = Except.ok () ∧
      (moveOneRoute link src dstT route k).2.trace =
        k.trace ++ [Op.delRoute { linkIndex := v.linkIndex, gw := v.gw, table := src },
                    Op.addRoute { linkIndex := v.linkIndex, gw := v.gw, table := dstT,
                                  mtu := route.mtu }]) ∧
    ((∀ s ∈ route.multiPath, s.linkIndex ≠ link.index) →
      moveOneRoute link src dstT route k = (Except.ok (), k)) := by
  constructor
  · intro v hv hdel hadd
    have hlen : ¬ route.multiPath.length = 0 := by
      intro h0
      rw [List.length_eq_zero] at h0
      rw [h0] at hv
      cases hv
    unfold moveOneRoute
    rw [if_neg (by simp [h1]), if_neg h2, if_neg h3, if_neg hlen, hv]
    dsimp only
    have hRD : RouteDel { linkIndex := v.linkIndex, gw := v.gw, table := src } k =
        (true, { k with
          trace := k.trace ++ [Op.delRoute { linkIndex := v.linkIndex, gw := v.gw, table := src }],
          routes := k.routes.filter
            (fun x => x ≠ { linkIndex := v.linkIndex, gw := v.gw, table := src }) }) := by
      unfold RouteDel
      rw [if_neg (by simp [hdel])]
    rw [hRD]
    dsimp only
    constructor
    · exact submitRoute_fst_ok _ _ hadd
    · rw [submitRoute_trace]
      simp
  · intro hseg
    unfold moveOneRoute
    rw [if_neg (by simp [h1]), if_neg h2, if_neg h3]
    by_cases hlen : route.multiPath.length = 0
    · rw [if_pos hlen]
    · rw [if_neg hlen]
      have hfind : route.multiPath.find? (fun s => s.linkIndex == link.index) = none := by
        rw [List.find?_eq_none]
        intro s hs
        simpa using hseg s hs
      rw [hfind]

/-- The shared IPv6 multipath default route of the C1 scenario: second
segment on `net1` (link 2) via `2001:db8::1`. -/
def mpRoute : Route :=
  { table := 254, family := 10,
    multiPath := [⟨1, [32, 1, 13, 184, 0, 0, 0, 0, 0, 0, 0, 0, 0, 0, 0, 2]⟩,
                  ⟨2, sampleV6Gw⟩] }

/-- A multipath route none of whose segments sit on `net1`'s link. -/
def mpSkipRoute : Route :=
  { table := 254, family := 10,
    multiPath := [⟨1, [32, 1, 13, 184, 0, 0, 0, 0, 0, 0, 0, 0, 0, 0, 0, 2]⟩] }

/-- Kernel for the C1 scenario; the generated route is already present in
table 100, so the add answers "already exists" and is still a success. -/
def mpKern : Kern :=
  mkKern [⟨"eth0", 1⟩, ⟨"net1", 2⟩]
    [mpRoute, { linkIndex := 2, gw := sampleV6Gw, table := 100 }]

/-- Witness for C1: the carve-out on `mpRoute` succeeds (with the add
answering "already exists") and emits exactly the delete of the
descriptor followed by the add of the generated route, while `mpSkipRoute`
is skipped untouched. -/
theorem moveRouteTable_multipath_witness :
    ((moveOneRoute ⟨"net1", 2⟩ 254 100 mpRoute mpKern).1 = Except.ok () ∧
     (moveOneRoute ⟨"net1", 2⟩ 254 100 mpRoute mpKern).2.trace =
       mpKern.trace ++ [Op.delRoute { linkIndex := 2, gw := sampleV6Gw, table := 254 },
                        Op.addRoute { linkIndex := 2, gw := sampleV6Gw, table := 100,
                                      mtu := mpRoute.mtu }]) ∧
    moveOneRoute ⟨"net1", 2⟩ 254 100 mpSkipRoute mpKern = (Except.ok (), mpKern) :=
  ⟨(moveRouteTable_multipath ⟨"net1", 2⟩ 254 100 mpRoute mpKern (by decide) (by decide)
      (by decide)).1 ⟨2, sampleV6Gw⟩ (by decide) rfl rfl,
   (moveRouteTable_multipath ⟨"net1", 2⟩ 254 100 mpSkipRoute mpKern (by decide) (by decide)
      (by decide)).2 (by decide)⟩

theorem op_ne_of_dst (x r : Route) (hx : ipnetString x.dst ≠ "fe80::/64")
    (hr : ipnetString r.dst = "fe80::/64") :
    (Op.delRoute x ≠ Op.delRoute r ∧ Op.delRoute x ≠ Op.addRoute r) ∧
    (Op.addRoute x ≠ Op.delRoute r ∧ Op.addRoute x ≠ Op.addRoute r) := by
  have hxr : x ≠ r := by
    intro he
    rw [he] at hx
    exact hx hr
  exact ⟨⟨by simp [hxr], by simp⟩, ⟨by simp, by simp [hxr]⟩⟩

theorem moveOneRoute_preserves (link : Link) (src dstT : Int) (route r : Route) (k : Kern)
    (hr : r ∈ k.routes) (hfe : ipnetString r.dst = "fe80::/64") :
    r ∈ (moveOneRoute link src dstT route k).2.routes ∧
    (∀ op, op ∈ (moveOneRoute link src dstT route k).2.trace →
      op ∈ k.trace ∨ (op ≠ Op.delRoute r ∧ op ≠ Op.addRoute r)) := by
  have hnil : ipnetString (none : Option IPNet) ≠ "fe80::/64" := by decide
  unfold moveOneRoute
  by_cases ht : route.table ≠ src
  · rw [if_pos ht]
    exact ⟨hr, fun op hop => Or.inl hop⟩
  · rw [if_neg ht]
    by_cases hf : ipnetString route.dst = "fe80::/64"
    · rw [if_pos hf]
      exact ⟨hr, fun op hop => Or.inl hop⟩
    · rw [if_neg hf]
      have hner : r ≠ route := by
        intro he
        rw [he] at hfe
        exact hf hfe
      by_cases hli : route.linkIndex = link.index
      · rw [if_pos hli]
        cases hdf : k.routeDelFail route with
        | true =>
          have hRD : RouteDel route k =
              (false, { k with trace := k.trace ++ [Op.delRoute route] }) := by
            unfold RouteDel
            rw [if_pos hdf]
          rw [hRD]
          dsimp only
          refine ⟨hr, fun op hop => ?_⟩
          simp only [List.mem_append, List.mem_singleton] at hop
          rcases hop with hop | hop
          · exact Or.inl hop
          · subst hop
            exact Or.inr (op_ne_of_dst route r hf hfe).1
        | false =>
          have hRD : RouteDel route k =
              (true, { k with
                trace := k.trace ++ [Op.delRoute route],
                routes := k.routes.filter (fun x => x ≠ route) }) := by
            unfold RouteDel
            rw [if_neg (by simp [hdf])]
          rw [hRD]
          dsimp only
          constructor
          · apply submitRoute_mem
            exact List.mem_filter.mpr ⟨hr, by simp [hner]⟩
          · intro op hop
            rw [submitRoute_trace] at hop
            simp only [List.mem_append, List.mem_singleton] at hop
            rcases hop with (hop | hop) | hop
            · exact Or.inl hop
            · subst hop
              exact Or.inr (op_ne_of_dst route r hf hfe).1
            · subst hop
              refine Or.inr (op_ne_of_dst { route with table := dstT } r ?_ hfe).2
              exact hf
      · rw [if_neg hli]
        by_cases hlen : route.multiPath.length = 0
        · rw [if_pos hlen]
          exact ⟨hr, fun op hop => Or.inl hop⟩
        · rw [if_neg hlen]
          cases hfind : route.multiPath.find? (fun v => v.linkIndex == link.index) with
          | none =>
            exact ⟨hr, fun op hop => Or.inl hop⟩
          | some v =>
            dsimp only
            have hnerD : r ≠ { linkIndex := v.linkIndex, gw := v.gw, table := src } := by
              intro he
              have hd : r.dst = none := by rw [he]
              rw [hd] at hfe
              exact hnil hfe
            cases hdf : k.routeDelFail { linkIndex := v.linkIndex, gw := v.gw, table := src } with
            | true =>
              have hRD : RouteDel { linkIndex := v.linkIndex, gw := v.gw, table := src } k =
                  (false, { k with trace := k.trace ++
                    [Op.delRoute { linkIndex := v.linkIndex, gw := v.gw, table := src }] }) := by
                unfold RouteDel
                rw [if_pos hdf]
              rw [hRD]
              dsimp only
              refine ⟨hr, fun op hop => ?_⟩
              simp only [List.mem_append, List.mem_singleton] at hop
              rcases hop with hop | hop
              · exact Or.inl hop
              · subst hop
                exact Or.inr (op_ne_of_dst _ r hnil hfe).1
            | false =>
              have hRD : RouteDel { linkIndex := v.linkIndex, gw := v.gw, table := src } k =
                  (true, { k with
                    trace := k.trace ++
                      [Op.delRoute { linkIndex := v.linkIndex, gw := v.gw, table := src }],
                    routes := k.routes.filter
                      (fun x => x ≠ { linkIndex := v.linkIndex, gw := v.gw, table := src }) }) := by
                unfold RouteDel
                rw [if_neg (by simp [hdf])]
              rw [hRD]
              dsimp only
              constructor
              · apply submitRoute_mem
                exact List.mem_filter.mpr ⟨hr, by simp [hnerD]⟩
              · intro op hop
                rw [submitRoute_trace] at hop
                simp only [List.mem_append, List.mem_singleton] at hop
                rcases hop with (hop | hop) | hop
                · exact Or.inl hop
                · subst hop
                  exact Or.inr (op_ne_of_dst _ r hnil hfe).1
                · subst hop
                  exact Or.inr (op_ne_of_dst _ r hnil hfe).2

theorem moveLoop_preserves (link : Link) (src dstT : Int) (routes : List Route) (r : Route)
    (k : Kern) (hr : r ∈ k.routes) (hfe : ipnetString r.dst = "fe80::/64") :
    r ∈ (moveLoop link src dstT routes k).2.routes ∧
    (∀ op, op ∈ (moveLoop link src dstT routes k).2.trace →
      op ∈ k.trace ∨ (op ≠ Op.delRoute r ∧ op ≠ Op.addRoute r)) := by
  induction routes generalizing k with
  | nil => exact ⟨hr, fun op hop => Or.inl hop⟩
  | cons route rest ih =>
    unfold moveLoop
    obtain ⟨hm1, hops1⟩ := moveOneRoute_preserves link src dstT route r k hr hfe
    cases hmo : moveOneRoute link src dstT route k with
    | mk res k1 =>
      rw [hmo] at hm1 hops1
      cases res with
      | ok u =>
        obtain ⟨hm2, hops2⟩ := ih k1 hm1
        refine ⟨hm2, fun op hop => ?_⟩
        rcases hops2 op hop with hop1 | hne
        · exact hops1 op hop1
        · exact Or.inr hne
      | error e =>
        exact ⟨hm1, hops1⟩

/-- C4: a route whose destination prints as the IPv6 link-local network
`fe80::/64` is never deleted nor re-added by `MoveRouteTable`: it is
still present, unmodified, among the kernel routes afterwards, and no
deletion or addition naming it is ever submitted. -/
theorem moveRouteTable_preserves_linklocal (iface : String) (src dstT fam : Int) (k : Kern)
    (r : Route) (hr : r ∈ k.routes) (hfe : ipnetString r.dst = "fe80::/64")
    (hsrc : r.table = src) :
    r ∈ (MoveRouteTable iface src dstT fam k).2.routes ∧
    (Op.delRoute r ∉ k.trace →
      Op.delRoute r ∉ (MoveRouteTable iface src dstT fam k).2.trace) ∧
    (Op.addRoute r ∉ k.trace →
      Op.addRoute r ∉ (MoveRouteTable iface src dstT fam k).2.trace) := by
  unfold MoveRouteTable
  cases hl : LinkByName iface k with
  | none => exact ⟨hr, fun h => h, fun h => h⟩
  | some link =>
    obtain ⟨hm, hops⟩ := moveLoop_preserves link src dstT (RouteList fam k) r k hr hfe
    refine ⟨hm, ?_, ?_⟩
    · intro hnot hmem
      rcases hops _ hmem with h | h
      · exact hnot h
      · exact h.1 rfl
    · intro hnot hmem
      rcases hops _ hmem with h | h
      · exact hnot h
      · exact h.2 rfl

/-- The IPv6 link-local route of the C4 scenario, on `net1` in the main
table. -/
def linkLocalRoute : Route :=
  { linkIndex := 2, table := 254, family := 10,
    dst := some ⟨[254, 128, 0, 0, 0, 0, 0, 0, 0, 0, 0, 0, 0, 0, 0, 0], CIDRMask 64 128⟩ }

/-- Kernel for the C4 scenario: `net1` carries the link-local route and a
v4 default route, both in the main table. -/
def linkLocalKern : Kern :=
  mkKern [⟨"eth0", 1⟩, ⟨"net1", 2⟩]
    [linkLocalRoute, { linkIndex := 2, table := 254, family := 2, gw := [10, 1, 1, 1] }]

/-- Witness for C4: after migrating `net1` from table 254 to table 100,
the `fe80::/64` route is still present and was never named in a delete or
an add. -/
theorem moveRouteTable_preserves_linklocal_witness :
    linkLocalRoute ∈ (MoveRouteTable "net1" 254 100 0 linkLocalKern).2.routes ∧
    (Op.delRoute linkLocalRoute ∉ linkLocalKern.trace →
      Op.delRoute linkLocalRoute ∉ (MoveRouteTable "net1" 254 100 0 linkLocalKern).2.trace) ∧
    (Op.addRoute linkLocalRoute ∉ linkLocalKern.trace →
      Op.addRoute linkLocalRoute ∉ (MoveRouteTable "net1" 254 100 0 linkLocalKern).2.trace) :=
  moveRouteTable_preserves_linklocal "net1" 254 100 0 linkLocalKern linkLocalRoute
    (by decide) (by decide) (by decide)

end Networking
